import Mathlib

/-!
Verification of the gen-score-pdf validation and templating pipeline.

This file shallowly embeds the Python sources of the application:

* `app/pdf_generator/__init__.py` — `validate_data` (the single-record
  validator) and `create_pdf` (the error-wrapping PDF entry point);
* `app/main.py` — `validate_input` (the form-input validator);
* `app/utils/file_processor.py` — `detect_encoding` and
  `validate_dataframe` (the table validator used by `main.py`);
* `app/utils/__init__.py` — the second `detect_encoding` variant;
* `app/pdf_generator/generator.py` — the HTML-side template rewriting
  performed by `generate_pdf` (placeholder substitution via `str.replace`,
  the score-up rewrite of the point span, and the two-line subject rewrite),
  and the bracket structure of its browser-launch block.

Python values appearing in records and tables are modelled by `Cell`
(integers, strings, and the pandas missing-value marker NaN).  Machine
floats other than NaN do not occur in the validated data (scores are
integers), so numeric cells are modelled as integers; `int(...)` and
`pd.to_numeric` are modelled as integer parsers accordingly.
-/

namespace GenScorePdf

/-- A Python value as it occurs in the records and tables processed by the
application: an integer, a string, or the missing-value marker (pandas NaN /
Python None). -/
inductive Cell where
  | int (n : Int)
  | str (s : String)
  | nan
  deriving DecidableEq

/-- Python truthiness of a `Cell`, as tested by `if not data[field]` in
`validate_data`: the integer `0` and the empty string are falsy; NaN is a
non-zero float and therefore truthy. -/
def truthy : Cell → Bool
  | .int n => !(n == 0)
  | .str s => !(s == "")
  | .nan => true

/-- Python `str(...)` of a `Cell` (used by the f-strings and the template
substitutions of `generator.py`). -/
def cellRepr : Cell → String
  | .int n => toString n
  | .str s => s
  | .nan => "nan"

/-- Digit-string accumulator for the integer parsers below. -/
def digitsValAux : List Char → Nat → Option Nat
  | [], acc => some acc
  | c :: cs, acc =>
      if c.isDigit then digitsValAux cs (acc * 10 + (c.toNat - 48)) else none

/-- ASCII whitespace, as stripped by Python `int(...)`. -/
def isSpaceChar (c : Char) : Bool :=
  c = ' ' || c = '\t' || c = '\n' || c = '\r'

/-- Strip leading and trailing whitespace from a character list. -/
def trimChars (cs : List Char) : List Char :=
  ((cs.dropWhile isSpaceChar).reverse.dropWhile isSpaceChar).reverse

/-- Python `int(s)` on a string: optional surrounding whitespace, an optional
sign, then decimal digits; anything else raises `ValueError` (modelled as
`none`).  (Underscore digit separators, accepted by CPython, are not modelled;
they occur in none of the inputs considered here.) -/
def pyInt : String → Option Int := fun s =>
  match trimChars s.data with
  | [] => none
  | '-' :: rest =>
      if rest = [] then none
      else (digitsValAux rest 0).map (fun n => -(n : Int))
  | '+' :: rest =>
      if rest = [] then none
      else (digitsValAux rest 0).map (fun n => (n : Int))
  | cs => (digitsValAux cs 0).map (fun n => (n : Int))

/-- Python `int(cell)`: integers pass through, strings are parsed, and
`int(float("nan"))` raises `ValueError` (modelled as `none`). -/
def toIntCell : Cell → Option Int
  | .int n => some n
  | .str s => pyInt s
  | .nan => none

/-- The required record fields / table columns, in source order
(`REQUIRED_COLUMNS` of `app/main.py` and `app/utils/__init__.py`, and
`required_fields` of `validate_data` — the three lists are identical). -/
def REQUIRED_COLUMNS : List String :=
  ["subject", "test_name", "score", "sc_year", "last_name", "first_name"]

/-- The eight valid subject names: the keys of `VALID_SUBJECTS`
(`app/pdf_generator/__init__.py`) = `SUBJECT_IMAGES` (`generator.py`). -/
def VALID_SUBJECT_NAMES : List String :=
  ["国語", "数学", "社会", "理科", "英語", "技術家庭", "音楽", "保健体育"]

/-- Association-list lookup for a record expressed as a Python dict
(`data[k]` / `k in data`). -/
def lookupField (data : List (String × Cell)) (k : String) : Option Cell :=
  (data.find? (fun p => p.1 = k)).map Prod.snd

/-- `data[k]` once presence has been established; the default is never
reached on the paths exercised below. -/
def getField (data : List (String × Cell)) (k : String) : Cell :=
  (lookupField data k).getD (.str "")

/-- The presence-and-nonemptiness loop of `validate_data`
(`app/pdf_generator/__init__.py` lines 56–60): for each required field in
order, `field not in data` yields the missing-field message and
`not data[field]` (Python truthiness) yields the field-empty message; the
first failure returns immediately. -/
def firstFieldError (data : List (String × Cell)) : List String → Option String
  | [] => none
  | f :: rest =>
      match lookupField data f with
      | none => some ("必須フィールドが不足しています: " ++ f)
      | some c =>
          if truthy c then firstFieldError data rest
          else some (f ++ "が空です")

/-- `validate_data` of `app/pdf_generator/__init__.py` (lines 36–74): the
required-field loop, then the subject check (`data["subject"] not in
VALID_SUBJECTS` — dict-key membership, so a string cell is compared against
the eight names), then `int(data["score"])` with a distinct message for
`ValueError`, then the range check.  It returns the FIRST failing check's
message (an `Optional[str]`), or `none`. -/
def validate_data (data : List (String × Cell)) : Option String :=
  match firstFieldError data REQUIRED_COLUMNS with
  | some e => some e
  | none =>
      if !(VALID_SUBJECT_NAMES.contains (cellRepr (getField data "subject"))) then
        some ("無効な教科名です: " ++ cellRepr (getField data "subject"))
      else
        match toIntCell (getField data "score") with
        | none => some "点数は整数である必要があります"
        | some n =>
            if 0 ≤ n ∧ n ≤ 100 then none
            else some "点数は0から100の間である必要があります"

/-- `validate_input` of `app/main.py` (lines 42–51): appends an error for an
empty last name, an empty first name, and an out-of-range score, in that
order, and returns the whole list.  The score arrives from the form as an
integer, so it is modelled as `Int`. -/
def validate_input (last_name first_name : String) (score : Int) : List String :=
  (if last_name = "" then ["姓を入力してください"] else [])
    ++ (if first_name = "" then ["名を入力してください"] else [])
    ++ (if 0 ≤ score ∧ score ≤ 100 then [] else ["点数は0から100の間で入力してください"])

/-- `ALLOWED_ENCODINGS` of `app/utils/__init__.py`; the same three labels are
inlined as a list literal in `app/utils/file_processor.py` line 26. -/
def ALLOWED_ENCODINGS : List String := ["utf-8", "shift-jis", "shift_jis"]

/-- ASCII lowercasing of one character (Python `str.lower` restricted to the
ASCII range, which covers every encoding label `chardet` emits). -/
def lowerChar (c : Char) : Char :=
  if 'A' ≤ c ∧ c ≤ 'Z' then Char.ofNat (c.toNat + 32) else c

/-- Python `label.lower()` for the encoding labels handled here. -/
def pyLower (s : String) : String := ⟨s.data.map lowerChar⟩

/-- `detect_encoding` of `app/utils/file_processor.py` (lines 7–31), as a
function of the label guessed by `chardet` over the input bytes: if the
LOWERCASED label is not allow-listed the result is `"utf-8"`, otherwise the
ORIGINAL label is returned unchanged (the lowercasing is applied only inside
the membership test, not to the returned value). -/
def detect_encoding_fp (label : String) : String :=
  if !(ALLOWED_ENCODINGS.contains (pyLower label)) then "utf-8" else label

/-- `detect_encoding` of `app/utils/__init__.py` (lines 35–70), as a function
of the guessed label: lowercases the label first and returns the LOWERCASED
label when allow-listed, else `"utf-8"`. -/
def detect_encoding_utils (label : String) : String :=
  let d := pyLower label
  if ALLOWED_ENCODINGS.contains d then d else "utf-8"

/-! ### Concrete records used by the individual claims -/

/-- A fully valid record except that the score is the given cell. -/
def recordWithScore (sc : Cell) : List (String × Cell) :=
  [("subject", .str "国語"), ("test_name", .str "第1回定期考査"), ("score", sc),
   ("sc_year", .str "小3"), ("last_name", .str "山田"), ("first_name", .str "太郎")]

/-- A record violating three rules at once: empty last name, unknown subject
and out-of-range score. -/
def tripleBadRecord : List (String × Cell) :=
  [("subject", .str "フランス語"), ("test_name", .str "第1回定期考査"),
   ("score", .int 150), ("sc_year", .str "小3"), ("last_name", .str ""),
   ("first_name", .str "太郎")]

/-- `tripleBadRecord` with the empty last name repaired (the other two
violations remain). -/
def tripleBadRecordFix1 : List (String × Cell) :=
  [("subject", .str "フランス語"), ("test_name", .str "第1回定期考査"),
   ("score", .int 150), ("sc_year", .str "小3"), ("last_name", .str "山田"),
   ("first_name", .str "太郎")]

/-- `tripleBadRecord` with the last name and the subject repaired (the score
violation remains). -/
def tripleBadRecordFix2 : List (String × Cell) :=
  [("subject", .str "数学"), ("test_name", .str "第1回定期考査"),
   ("score", .int 150), ("sc_year", .str "小3"), ("last_name", .str "山田"),
   ("first_name", .str "太郎")]

/-- C1: the claim says a record whose fields are present is accepted iff its
score is an integer in [0,100], with score=0 accepted.  The code disagrees at
score=0: the truthiness loop of `validate_data` treats the integer 0 as an
empty field and rejects the record with the field-empty message, even though
the function's own range check (`0 <= score <= 100`) and the form UI
(`min_value=0`, accepted by `validate_input`) treat 0 as valid.  All the other
cited behaviours hold: 100 accepted, 101 and -1 rejected with the range
message, "abc" rejected with the distinct integer message. -/
theorem C1_score_zero_rejected_as_empty :
    validate_data (recordWithScore (.int 0)) = some "scoreが空です"
      ∧ validate_data (recordWithScore (.int 100)) = none
      ∧ validate_data (recordWithScore (.int 101))
          = some "点数は0から100の間である必要があります"
      ∧ validate_data (recordWithScore (.int (-1)))
          = some "点数は0から100の間である必要があります"
      ∧ validate_data (recordWithScore (.str "abc"))
          = some "点数は整数である必要があります"
      ∧ validate_input "山田" "太郎" 0 = [] := by
  decide

/-- C2 counterexample: on a record violating three rules at once (empty last
name, unknown subject, score 150) the record validator `validate_data` does
NOT return one entry per violated rule: it returns the single message of the
first failing check and stops.  Repairing that violation surfaces the next
one, and repairing that one surfaces the third — so all three rules were
indeed violated, yet only one was reported. -/
theorem C2_first_error_only_counterexample :
    validate_data tripleBadRecord = some "last_nameが空です"
      ∧ validate_data tripleBadRecordFix1 = some "無効な教科名です: フランス語"
      ∧ validate_data tripleBadRecordFix2
          = some "点数は0から100の間である必要があります" := by
  decide

/-- C2 amended: `validate_data` short-circuits at the first violated rule and
returns a single error string — for any record whose subject, test name,
sc_year and score entries are truthy but whose last name is empty, the result
is exactly the last-name-empty message, whatever else is wrong with the
record.  The form validator `validate_input` does collect its checks into a
list, but it only ever checks last name, first name and score range — it has
no subject or integrality check at all. -/
theorem C2_amended_first_error_only (sj tn yr fn : String) (sc : Int)
    (hsj : sj ≠ "") (htn : tn ≠ "") (hyr : yr ≠ "") (hsc : sc ≠ 0)
    (hfn : fn ≠ "") :
    validate_data
        [("subject", .str sj), ("test_name", .str tn), ("score", .int sc),
         ("sc_year", .str yr), ("last_name", .str ""), ("first_name", .str fn)]
        = some "last_nameが空です"
      ∧ validate_input "" fn 150
          = ["姓を入力してください", "点数は0から100の間で入力してください"] := by
  constructor
  · simp only [validate_data, firstFieldError, lookupField, List.find?,
      REQUIRED_COLUMNS, truthy]
    simp [hsj, htn, hyr, hsc]
  · simp only [validate_input]
    simp [hfn]

/-- C2 amended, witness at a concrete record. -/
theorem C2_amended_first_error_only_witness :
    validate_data
        [("subject", .str "フランス語"), ("test_name", .str "第1回定期考査"),
         ("score", .int 150), ("sc_year", .str "小3"), ("last_name", .str ""),
         ("first_name", .str "太郎")]
        = some "last_nameが空です"
      ∧ validate_input "" "太郎" 150
          = ["姓を入力してください", "点数は0から100の間で入力してください"] :=
  C2_amended_first_error_only "フランス語" "第1回定期考査" "小3" "太郎" 150
    (by decide) (by decide) (by decide) (by decide) (by decide)

/-- C6 counterexample: the claim says the detector lowercases the guessed
label and always returns one of the three lowercase allow-listed strings.
The `file_processor` variant — the one imported by `app/main.py` — lowercases
only inside the membership test and returns the ORIGINAL label: on the label
"SHIFT_JIS" (the casing `chardet` actually reports for Shift-JIS input) it
returns "SHIFT_JIS", which is not one of the three allow-listed lowercase
strings. -/
theorem C6_fp_keeps_original_case :
    detect_encoding_fp "SHIFT_JIS" = "SHIFT_JIS"
      ∧ ALLOWED_ENCODINGS.contains "SHIFT_JIS" = false := by
  decide

/-- C6 amended: for every guessed label, the `utils/__init__.py` detector
returns the lowercased label when allow-listed and "utf-8" otherwise, so its
result is always one of the three allow-listed lowercase strings; the
`file_processor.py` detector (used by the app) instead returns either the
original, unlowercased label or the "utf-8" fallback — only the LOWERCASE of
its result is guaranteed allow-listed. -/
theorem C6_amended_detectors (label : String) :
    detect_encoding_utils label ∈ ALLOWED_ENCODINGS
      ∧ (detect_encoding_fp label = label ∨ detect_encoding_fp label = "utf-8")
      ∧ pyLower (detect_encoding_fp label) ∈ ALLOWED_ENCODINGS := by
  have hutf : "utf-8" ∈ ALLOWED_ENCODINGS := by
    unfold ALLOWED_ENCODINGS
    exact List.mem_cons_self _ _
  have hutfl : pyLower "utf-8" = "utf-8" := by decide
  by_cases h : ALLOWED_ENCODINGS.contains (pyLower label) = true
  · have hmem : pyLower label ∈ ALLOWED_ENCODINGS := List.mem_of_elem_eq_true h
    refine ⟨?_, Or.inl ?_, ?_⟩
    · simp only [detect_encoding_utils]
      rw [if_pos h]
      exact hmem
    · simp only [detect_encoding_fp]
      rw [if_neg (by simp [hmem])]
    · simp only [detect_encoding_fp]
      rw [if_neg (by simp [hmem])]
      exact hmem
  · refine ⟨?_, Or.inr ?_, ?_⟩
    · simp only [detect_encoding_utils]
      rw [if_neg h]
      exact hutf
    · simp only [detect_encoding_fp]
      rw [if_pos (by simpa using h)]
    · simp only [detect_encoding_fp]
      rw [if_pos (by simpa using h), hutfl]
      exact hutf

/-! ### The table validator (`validate_dataframe` of `app/utils/file_processor.py`)

A pandas `DataFrame` is modelled as a list of named columns, each a list of
cells.  `validate_dataframe` both returns the validation outcome and — because
it executes `df["score"] = pd.to_numeric(df["score"])` on the caller's frame —
the (possibly mutated) frame, so it is embedded as a state-passing function
returning the pair. -/

/-- A pandas DataFrame: named columns of cells. -/
structure DataFrame where
  cols : List (String × List Cell)
  deriving DecidableEq

/-- `df.columns`. -/
def DataFrame.colNames (df : DataFrame) : List String := df.cols.map Prod.fst

/-- `df[c]`: the cells of column `c` (the empty column if absent; on every
path below the column-set check has established presence before any access). -/
def DataFrame.getCol (df : DataFrame) (c : String) : List Cell :=
  ((df.cols.find? (fun p => p.1 = c)).map Prod.snd).getD []

/-- `df[c] = v`: replace the cells of column `c`. -/
def DataFrame.setCol (df : DataFrame) (c : String) (v : List Cell) : DataFrame :=
  ⟨df.cols.map (fun p => if p.1 = c then (p.1, v) else p)⟩

/-- `pd.to_numeric` on one cell: numbers pass through, NaN stays NaN, numeric
strings are parsed, and a non-numeric string raises (modelled as `none`). -/
def toNumericCell : Cell → Option Cell
  | .int n => some (.int n)
  | .nan => some .nan
  | .str s => (pyInt s).map .int

/-- `pd.to_numeric` on a whole column: any failing cell fails the column. -/
def toNumericCol (l : List Cell) : Option (List Cell) := l.mapM toNumericCell

/-- `cell.between(0, 100)` for a coerced score cell; NaN compares false. -/
def betweenScore : Cell → Bool
  | .int n => decide (0 ≤ n) && decide (n ≤ 100)
  | _ => false

/-- `pd.isna` on a cell: only the missing-value marker is NA — in particular
the empty string is NOT NA. -/
def isnaCell : Cell → Bool
  | .nan => true
  | _ => false

/-- The columns scanned by the null check of
`app/utils/file_processor.py` lines 60–62 (note: `score` is not scanned). -/
def NULL_CHECK_COLUMNS : List String :=
  ["subject", "test_name", "sc_year", "last_name", "first_name"]

/-- The null-check loop: the first listed column containing an NA cell. -/
def firstNullCol (df : DataFrame) : Option String :=
  NULL_CHECK_COLUMNS.find? (fun c => (df.getCol c).any isnaCell)

/-- `set(df["subject"]) - set(valid_subjects)`: the distinct subject values
not in the valid set.  (A Python `set` is unordered; it is modelled as the
deduplicated list in first-occurrence order — the claims below never depend
on the ordering inside the joined message.) -/
def invalidSubjects (df : DataFrame) : List String :=
  (((df.getCol "subject").map cellRepr).eraseDups).filter
    (fun s => !(VALID_SUBJECT_NAMES.contains s))

/-- The subject check (the tail of `validate_dataframe`): `none` when every
distinct subject value is valid, otherwise the joined message. -/
def subjectCheckMsg (df : DataFrame) : Option String :=
  match invalidSubjects df with
  | [] => none
  | inv => some ("無効な教科名が含まれています: " ++ String.intercalate ", " inv)

/-- `validate_dataframe` of `app/utils/file_processor.py` (lines 34–82):
1. the column-set check (`set(required) - set(df.columns)`), which returns
   immediately on a non-empty difference, before touching any cell;
2. `df["score"] = pd.to_numeric(df["score"])` — written back into the frame;
   a raising coercion is caught by the surrounding `except` and reported with
   the generic message, leaving the frame unassigned;
3. the range check over the coerced score column (one fixed message for the
   whole table);
4. the null check over `NULL_CHECK_COLUMNS`, naming the first NA column;
5. the subject check.
The result pairs the returned `Optional[str]` with the caller's frame as
left behind by step 2.  (The Python set difference is modelled as the filter
of `required` in list order.) -/
def validate_dataframe (df : DataFrame) (required : List String) :
    Option String × DataFrame :=
  let missing := required.filter (fun c => !(df.colNames.contains c))
  match missing with
  | _ :: _ =>
      (some ("必須カラムが不足しています: " ++ String.intercalate ", " missing), df)
  | [] =>
      match toNumericCol (df.getCol "score") with
      | none => (some "データの検証中にエラーが発生しました: 点数を数値に変換できません", df)
      | some coerced =>
          let df' := df.setCol "score" coerced
          if coerced.all betweenScore then
            match firstNullCol df' with
            | some c => (some (c ++ "に空の値が含まれています"), df')
            | none => (subjectCheckMsg df', df')
          else
            (some "点数は0から100の間である必要があります", df')

/-- Columns named differently from `c` keep their cells under `setCol c`. -/
theorem getCol_setCol_ne (df : DataFrame) (c n : String) (v : List Cell)
    (h : c ≠ n) : (df.setCol n v).getCol c = df.getCol c := by
  unfold DataFrame.setCol DataFrame.getCol
  induction df.cols with
  | nil => rfl
  | cons p rest ih =>
      simp only [List.map_cons]
      by_cases hpc : p.1 = c
      · have hpn : ¬ (p.1 = n) := fun hh => h (by rw [← hpc, hh])
        rw [if_neg hpn, List.find?_cons_of_pos _ (by simpa using hpc),
            List.find?_cons_of_pos _ (by simpa using hpc)]
      · by_cases hpn : p.1 = n
        · rw [if_pos hpn,
              List.find?_cons_of_neg _ (by simpa using hpc),
              List.find?_cons_of_neg _ (by simpa using hpc)]
          simpa using ih
        · rw [if_neg hpn,
              List.find?_cons_of_neg _ (by simpa using hpc),
              List.find?_cons_of_neg _ (by simpa using hpc)]
          simpa using ih

/-! ### C3, C4, C5, C10 -/

/-- C3: on every table missing at least one required column, the table
validator fails immediately with the message listing exactly the missing
column names (the filtered required list — with a single missing column,
exactly that name), it returns the caller's frame untouched, and the check
short-circuits: the outcome is a function of the column-name set alone, so
it is independent of every cell value in the columns that are present. -/
theorem C3_missing_columns_short_circuit (df : DataFrame)
    (h : REQUIRED_COLUMNS.filter (fun c => !(df.colNames.contains c)) ≠ []) :
    validate_dataframe df REQUIRED_COLUMNS =
        (some ("必須カラムが不足しています: " ++ String.intercalate ", "
          (REQUIRED_COLUMNS.filter (fun c => !(df.colNames.contains c)))), df)
      ∧ ∀ df₂ : DataFrame, df₂.colNames = df.colNames →
          (validate_dataframe df₂ REQUIRED_COLUMNS).1
            = (validate_dataframe df REQUIRED_COLUMNS).1 := by
  obtain ⟨a, rest, hm⟩ := List.exists_cons_of_ne_nil h
  constructor
  · unfold validate_dataframe
    rw [hm]
  · intro df₂ h₂
    have hm₂ : REQUIRED_COLUMNS.filter (fun c => !(df₂.colNames.contains c))
        = REQUIRED_COLUMNS.filter (fun c => !(df.colNames.contains c)) := by
      rw [h₂]
    unfold validate_dataframe
    rw [hm₂, hm]

/-- C3 witness: a single-column table holding only `last_name` is missing
exactly `subject`, `test_name`, `score`, `sc_year` and `first_name`, and a
table missing only `score` is rejected listing exactly `score`. -/
theorem C3_missing_columns_short_circuit_witness :
    validate_dataframe
        (DataFrame.mk
          [("subject", [.str "国語"]), ("test_name", [.str "第1回"]),
           ("sc_year", [.str "小3"]), ("last_name", [.str "山田"]),
           ("first_name", [.str "太郎"])]) REQUIRED_COLUMNS
      = (some "必須カラムが不足しています: score",
          DataFrame.mk
            [("subject", [.str "国語"]), ("test_name", [.str "第1回"]),
             ("sc_year", [.str "小3"]), ("last_name", [.str "山田"]),
             ("first_name", [.str "太郎"])]) :=
  (C3_missing_columns_short_circuit _ (by decide)).1

/-- C4: on every table that has all required columns, a score column that
fails numeric coercion, or that coerces but contains any value outside
[0,100] (e.g. 150) — NaN included, since NaN fails `between` — rejects the
WHOLE table with one fixed message (an `Optional[str]`, not a per-row list);
the message is a constant, independent of which or how many rows offend. -/
theorem C4_score_whole_table_failure (df : DataFrame)
    (hcols : REQUIRED_COLUMNS.filter (fun c => !(df.colNames.contains c)) = []) :
    (toNumericCol (df.getCol "score") = none →
        validate_dataframe df REQUIRED_COLUMNS
          = (some "データの検証中にエラーが発生しました: 点数を数値に変換できません", df))
      ∧ (∀ coerced, toNumericCol (df.getCol "score") = some coerced →
          coerced.all betweenScore = false →
          validate_dataframe df REQUIRED_COLUMNS
            = (some "点数は0から100の間である必要があります",
                df.setCol "score" coerced)) := by
  constructor
  · intro hnum
    unfold validate_dataframe
    rw [hcols, hnum]
  · intro coerced hnum hrange
    unfold validate_dataframe
    rw [hcols, hnum]
    simp only [hrange]
    rfl

/-- C4 witness: an otherwise-valid one-row table with score 150 is rejected
whole with the single range message. -/
theorem C4_score_whole_table_failure_witness :
    validate_dataframe
        (DataFrame.mk
          [("subject", [.str "国語"]), ("test_name", [.str "第1回"]),
           ("score", [.int 150]), ("sc_year", [.str "小3"]),
           ("last_name", [.str "山田"]), ("first_name", [.str "太郎"])])
        REQUIRED_COLUMNS
      = (some "点数は0から100の間である必要があります",
          DataFrame.mk
            [("subject", [.str "国語"]), ("test_name", [.str "第1回"]),
             ("score", [.int 150]), ("sc_year", [.str "小3"]),
             ("last_name", [.str "山田"]), ("first_name", [.str "太郎"])]) :=
  (C4_score_whole_table_failure _ (by decide)).2 [.int 150] (by decide) (by decide)

/-- A table whose `last_name` column holds the EMPTY STRING in its only row,
with everything else valid. -/
def emptyStringCellTable : DataFrame :=
  DataFrame.mk
    [("subject", [.str "国語"]), ("test_name", [.str "第1回定期考査"]),
     ("score", [.int 50]), ("sc_year", [.str "小3"]),
     ("last_name", [.str ""]), ("first_name", [.str "太郎"])]

/-- C5 counterexample: the claim says the null check fails whenever any cell
of a required column is empty or missing, INCLUDING a cell holding the empty
string.  The code's null check is `df[col].isna().any()`, and the empty
string is not NA for pandas: this table — valid except that its `last_name`
cell is the empty string — passes the whole validation (`none`), so the
validator does not fail on empty-string cells. -/
theorem C5_empty_string_passes_null_check :
    validate_dataframe emptyStringCellTable REQUIRED_COLUMNS
      = (none, emptyStringCellTable) := by
  decide

/-- C5 amended: on every table passing the column-set and score checks, the
null check fails — naming the offending column — exactly for the first of
`subject`, `test_name`, `sc_year`, `last_name`, `first_name` containing an NA
cell (pandas `isna`); `score` is not scanned (an NA score has already failed
the range check, NaN not being between 0 and 100), a cell holding the empty
string does not count as missing, and when no scanned column has an NA cell
control reaches the subject check. -/
theorem C5_null_check_is_isna_only (df : DataFrame) (coerced : List Cell)
    (hcols : REQUIRED_COLUMNS.filter (fun c => !(df.colNames.contains c)) = [])
    (hnum : toNumericCol (df.getCol "score") = some coerced)
    (hrange : coerced.all betweenScore = true) :
    (∀ c, firstNullCol (df.setCol "score" coerced) = some c →
        (validate_dataframe df REQUIRED_COLUMNS).1
          = some (c ++ "に空の値が含まれています"))
      ∧ (firstNullCol (df.setCol "score" coerced) = none →
          (validate_dataframe df REQUIRED_COLUMNS).1
            = subjectCheckMsg (df.setCol "score" coerced)) := by
  constructor
  · intro c hc
    unfold validate_dataframe
    rw [hcols, hnum]
    simp only [hrange, if_true]
    rw [hc]
  · intro hc
    unfold validate_dataframe
    rw [hcols, hnum]
    simp only [hrange, if_true]
    rw [hc]

/-- C5 amended, witness: a table whose `sc_year` cell is NaN is rejected
naming `sc_year`. -/
theorem C5_null_check_is_isna_only_witness :
    (validate_dataframe
        (DataFrame.mk
          [("subject", [.str "国語"]), ("test_name", [.str "第1回"]),
           ("score", [.int 50]), ("sc_year", [Cell.nan]),
           ("last_name", [.str "山田"]), ("first_name", [.str "太郎"])])
        REQUIRED_COLUMNS).1
      = some "sc_yearに空の値が含まれています" :=
  (C5_null_check_is_isna_only _ [.int 50] (by decide) (by decide) (by decide)).1
    "sc_year" (by decide)

/-- A table whose scores arrive as digit strings and whose subject is
invalid: validation fails, yet the frame has been mutated. -/
def stringScoreTable : DataFrame :=
  DataFrame.mk
    [("subject", [.str "フランス語"]), ("test_name", [.str "第1回"]),
     ("score", [.str "95"]), ("sc_year", [.str "小3"]),
     ("last_name", [.str "山田"]), ("first_name", [.str "太郎"])]

/-- C10: the table validator is not side-effect-free on its input.  Whenever
the column-set check passes and the numeric coercion succeeds, the caller's
frame comes back with the coerced values written into the `score` column —
whatever the eventual outcome, i.e. before and regardless of the range, null
and subject checks — while every other column is returned unchanged.  (When
the column-set check fails, or the coercion raises, the frame is untouched:
the assignment never completes.) -/
theorem C10_score_column_mutation (df : DataFrame) (coerced : List Cell)
    (hcols : REQUIRED_COLUMNS.filter (fun c => !(df.colNames.contains c)) = [])
    (hnum : toNumericCol (df.getCol "score") = some coerced) :
    (validate_dataframe df REQUIRED_COLUMNS).2 = df.setCol "score" coerced
      ∧ (∀ c, c ≠ "score" →
          (df.setCol "score" coerced).getCol c = df.getCol c)
      ∧ (∀ required₂ : List String,
          required₂.filter (fun c => !(df.colNames.contains c)) ≠ [] →
          (validate_dataframe df required₂).2 = df)
      ∧ (toNumericCol (df.getCol "score") = none →
          (validate_dataframe df REQUIRED_COLUMNS).2 = df) := by
  refine ⟨?_, ?_, ?_, ?_⟩
  · unfold validate_dataframe
    rw [hcols, hnum]
    by_cases hr : coerced.all betweenScore
    · simp only [hr, if_true]
      cases hf : firstNullCol (df.setCol "score" coerced) <;> rfl
    · simp only [hr]
      rfl
  · intro c hc
    exact getCol_setCol_ne df c "score" coerced hc
  · intro required₂ h₂
    obtain ⟨a, rest, hm⟩ := List.exists_cons_of_ne_nil h₂
    unfold validate_dataframe
    rw [hm]
  · intro hnone
    rw [hnone] at hnum
    exact absurd hnum (by simp)

/-- C10 witness: on the string-score/invalid-subject table the validator
fails (subject message) AND has already replaced the caller's `score` column
by the coerced integers, leaving the other columns unchanged. -/
theorem C10_score_column_mutation_witness :
    (validate_dataframe stringScoreTable REQUIRED_COLUMNS).2
        = stringScoreTable.setCol "score" [.int 95]
      ∧ (validate_dataframe stringScoreTable REQUIRED_COLUMNS).1
        = some "無効な教科名が含まれています: フランス語"
      ∧ (validate_dataframe stringScoreTable REQUIRED_COLUMNS).2 ≠ stringScoreTable
      ∧ stringScoreTable.getCol "subject"
        = (validate_dataframe stringScoreTable REQUIRED_COLUMNS).2.getCol "subject" := by
  refine ⟨(C10_score_column_mutation stringScoreTable [.int 95]
    (by decide) (by decide)).1, by decide, by decide, by decide⟩

/-! ### C9: the malformed browser-launch block of `generator.py`

Lines 359–380 of `app/pdf_generator/generator.py` are embedded verbatim as
text, one string per physical line.  (Two inessential transcriptions: the
Python single-quoted string literals are written with double quotes, and
literal braces are written with their `\x7b`/`\x7d` escapes — neither alters
any bracket character, which is all the analysis below reads.)  No bracket
character occurs inside any string literal of these lines, so counting the
raw `(`/`)`, `[`/`]` and brace characters computes the token-level bracket
depth exactly.  The theorem shows that from the `browser = await
p.chromium.launch(` line onwards the cumulative depth never returns to 0 and
ends at 1: one launch parenthesis is opened and never balanced, so the
subsequent `page = ...`, `await ...` and `return` lines all still sit inside
the call's argument parentheses.  Python's grammar admits no statement suite
there (inside parentheses the lines form a comma-less argument sequence),
hence the module fails to compile — `SyntaxError` at import time, before any
PDF can be produced. -/

/-- `app/pdf_generator/generator.py`, lines 359–380, one entry per line. -/
def generatorSnippet : List String :=
  ["    async def generate_pdf_async():",
   "        # Generate PDF",
   "        async with async_playwright() as p:",
   "            browser = await p.chromium.launch(",
   "                browser = await p.chromium.launch(",
   "            headless=True,",
   "            args=[\"--no-sandbox\", \"--disable-setuid-sandbox\"]",
   "            )",
   "            page = await browser.new_page()",
   "            await page.set_viewport_size(\x7b\"width\": 842, \"height\": 595\x7d)",
   "            await page.set_content(html_with_css, wait_until=\"networkidle\")",
   "            await page.wait_for_timeout(1000)",
   "            pdf_data = await page.pdf(",
   "                width=\"842px\",",
   "                height=\"595px\",",
   "                print_background=True,",
   "                margin=\x7b\"top\": \"0\", \"right\": \"0\", \"bottom\": \"0\", \"left\": \"0\"\x7d,",
   "            )",
   "            await browser.close()",
   "            return pdf_data",
   "",
   "    return asyncio.run(generate_pdf_async())"]

/-- Net bracket contribution of one character: +1 for an opener, -1 for a
closer, 0 otherwise. -/
def bracketDelta (c : Char) : Int :=
  if c = '(' ∨ c = '[' ∨ c = '\x7b' then 1
  else if c = ')' ∨ c = ']' ∨ c = '\x7d' then -1
  else 0

/-- Net bracket contribution of one line. -/
def lineDelta (s : String) : Int := (s.data.map bracketDelta).sum

/-- Cumulative bracket depth after each successive line, starting from the
given depth. -/
def cumDepths : List String → Int → List Int
  | [], _ => []
  | l :: ls, d => (d + lineDelta l) :: cumDepths ls (d + lineDelta l)

set_option maxRecDepth 8192

/-- C9: in the async rendering block of `generate_pdf`, the doubled
`browser = await p.chromium.launch(` opens a parenthesis that is never
balanced: the cumulative bracket depth is already 1 after the first `launch(`
line (index 3 of the snippet), stays at least 1 on every subsequent line, and
is still 1 at the end of the function — including at the `page = ...`,
`await ...` and `return` lines, which therefore sit inside an argument list
with no separating commas.  The module body is hence not syntactically valid
Python, so importing `generator` (and with it any call to `generate_pdf`)
fails before any PDF bytes can be produced. -/
theorem C9_launch_parenthesis_unbalanced :
    (cumDepths generatorSnippet 0).getLast? = some 1
      ∧ ∀ d ∈ (cumDepths generatorSnippet 0).drop 3, 1 ≤ d := by
  decide

/-! ### Python `str.replace` over character lists

`generator.py` assembles its markup with `str.replace`, which scans left to
right and rewrites every non-overlapping occurrence; the replacement text is
never rescanned within the same call.  `replaceAll` embeds exactly that.
(The Python special case of an empty pattern never arises — every pattern in
`generate_pdf` is a nonempty literal — and is a no-op here.)  The `Clean`
predicate says no match of the pattern can start anywhere inside a segment,
whatever text follows it; it is what lets the shape of a replacement be
computed on strings that still contain symbolic record values. -/

/-- Character lists, the carrier for the string rewriting. -/
abbrev Chars := List Char

/-- Python `s.replace(p, r)` for nonempty `p`. -/
def replaceAll (p r : Chars) : Chars → Chars
  | [] => []
  | c :: s =>
      if p.isPrefixOf (c :: s) ∧ p ≠ [] then
        r ++ replaceAll p r (s.drop (p.length - 1))
      else
        c :: replaceAll p r s
termination_by s => s.length
decreasing_by
  · simp only [List.length_cons]
    have hd : (s.drop (p.length - 1)).length ≤ s.length := by
      rw [List.length_drop]
      omega
    omega
  · simp

/-- No match of `p` starts at any position of `s`, whatever follows `s`. -/
def Clean (p s : Chars) : Prop := ∀ i t, i < s.length → ¬ p <+: (s.drop i ++ t)

theorem clean_nil (p : Chars) : Clean p [] := by
  intro i t hi
  simp at hi

theorem clean_tail {p : Chars} {c : Char} {s : Chars} (h : Clean p (c :: s)) :
    Clean p s := by
  intro i t hi
  have := h (i + 1) t (by simpa using Nat.succ_lt_succ hi)
  simpa using this

theorem clean_append {p a b : Chars} (ha : Clean p a) (hb : Clean p b) :
    Clean p (a ++ b) := by
  intro i t hi
  by_cases hia : i < a.length
  · rw [List.drop_append_of_le_length (Nat.le_of_lt hia), List.append_assoc]
    exact ha i (b ++ t) hia
  · have hi2 : i = a.length + (i - a.length) := by omega
    rw [hi2, List.drop_append]
    apply hb
    have := hi
    rw [List.length_append] at this
    omega

/-- If `p ++ u = d ++ t` then `p` and `d` are comparable in the order `<+:`. -/
theorem preAppCases : ∀ (p d t u : Chars), p ++ u = d ++ t → p <+: d ∨ d <+: p
  | [], d, _, _, _ => Or.inl ⟨d, rfl⟩
  | a :: p, [], _, _, _ => Or.inr ⟨a :: p, rfl⟩
  | a :: p, b :: d, t, u, h => by
      injection h with h1 h2
      rcases preAppCases p d t u h2 with hl | hr
      · exact Or.inl (List.cons_prefix_cons.2 ⟨h1, hl⟩)
      · exact Or.inr (List.cons_prefix_cons.2 ⟨h1.symm, hr⟩)

/-- `p` and `d` are prefix-comparable (Boolean). -/
def comparableB (p d : Chars) : Bool := p.isPrefixOf d || d.isPrefixOf p

/-- Decidable sufficient condition for `Clean`: no nonempty suffix of `s` is
prefix-comparable with `p`. -/
def cleanB (p : Chars) : Chars → Bool
  | [] => true
  | c :: s => !(comparableB p (c :: s)) && cleanB p s

theorem isPrefixOfE (p s : Chars) : p.isPrefixOf s = true ↔ p <+: s := by
  induction p generalizing s with
  | nil =>
      constructor
      · intro _
        exact ⟨s, rfl⟩
      · intro _
        cases s <;> rfl
  | cons a p ih =>
      cases s with
      | nil =>
          simp only [List.isPrefixOf]
          constructor
          · intro h
            exact absurd h (by simp)
          · intro h
            have := List.prefix_nil.1 h
            simp at this
      | cons b s =>
          simp only [List.isPrefixOf, Bool.and_eq_true, beq_iff_eq,
            List.cons_prefix_cons, ih]

theorem clean_of_cleanB {p : Chars} : ∀ {s : Chars}, cleanB p s = true → Clean p s := by
  intro s
  induction s with
  | nil => exact fun _ => clean_nil p
  | cons c s ih =>
      intro h
      simp only [cleanB, Bool.and_eq_true] at h
      obtain ⟨h1, h2⟩ := h
      intro i t hi
      cases i with
      | zero =>
          intro hpre
          obtain ⟨u, hu⟩ := hpre
          simp only [List.drop_zero] at hu
          rw [List.cons_append] at hu
          rcases preAppCases p (c :: s) t u (by simpa using hu) with hc | hc
          · rw [Bool.not_eq_true', comparableB, Bool.or_eq_false_iff] at h1
            exact absurd ((isPrefixOfE p (c :: s)).2 hc) (by simp [h1.1])
          · rw [Bool.not_eq_true', comparableB, Bool.or_eq_false_iff] at h1
            exact absurd ((isPrefixOfE (c :: s) p).2 hc) (by simp [h1.2])
      | succ j =>
          have hcl := ih h2
          intro hpre
          rw [List.drop_succ_cons] at hpre
          exact hcl j t (by simpa using hi) hpre

/-- A segment avoiding the pattern's head character is `Clean`. -/
theorem clean_of_head_notin (p s : Chars) (h : Char) (hph : p.head? = some h)
    (hs : ∀ c ∈ s, c ≠ h) : Clean p s := by
  cases p with
  | nil => simp at hph
  | cons a p' =>
      have ha : a = h := by simpa using hph
      intro i t hi hpre
      have hlen : (s.drop i).length = s.length - i := List.length_drop i s
      cases hd : s.drop i with
      | nil =>
          rw [hd] at hlen
          simp at hlen
          omega
      | cons c d =>
          rw [hd, List.cons_append] at hpre
          obtain ⟨u, hu⟩ := hpre
          rw [List.cons_append] at hu
          have hac : a = c := by
            injection hu
          have hcs : c ∈ s := by
            have : c ∈ s.drop i := by
              rw [hd]
              exact List.mem_cons_self c d
            exact List.mem_of_mem_drop this
          exact hs c hcs (by rw [← hac, ha])

/-- Scanning a `Clean` segment leaves it untouched and continues behind it. -/
theorem clean_step (p r : Chars) : ∀ (s u : Chars), Clean p s →
    replaceAll p r (s ++ u) = s ++ replaceAll p r u := by
  intro s
  induction s with
  | nil => intro u _; simp
  | cons c s ih =>
      intro u hC
      have hhead : ¬ (p.isPrefixOf (c :: (s ++ u)) = true ∧ p ≠ []) := by
        rintro ⟨h1, _⟩
        have hp2 : p <+: (c :: s) ++ u := by
          rw [List.cons_append]
          exact (isPrefixOfE p (c :: (s ++ u))).1 h1
        exact hC 0 u (by simp) (by simpa using hp2)
      rw [List.cons_append]
      rw [replaceAll]
      rw [if_neg hhead, ih u (clean_tail hC), List.cons_append]

theorem replaceAll_nil (p r : Chars) : replaceAll p r [] = [] := by
  rw [replaceAll]

/-- A fully `Clean` string is returned unchanged. -/
theorem clean_id (p r s : Chars) (h : Clean p s) : replaceAll p r s = s := by
  have h2 := clean_step p r s [] h
  rw [List.append_nil, replaceAll_nil, List.append_nil] at h2
  exact h2

/-- Replacement fires at an occurrence sitting at the head of the string. -/
theorem match_step (p r t : Chars) (hp : p ≠ []) :
    replaceAll p r (p ++ t) = r ++ replaceAll p r t := by
  cases p with
  | nil => exact absurd rfl hp
  | cons a p' =>
      rw [List.cons_append, replaceAll]
      rw [if_pos ?_]
      · congr 1
        simp only [List.length_cons, Nat.add_sub_cancel]
        rw [List.drop_left]
      · exact ⟨(isPrefixOfE _ _).2 (List.cons_prefix_cons.2 ⟨rfl, ⟨t, rfl⟩⟩),
          by simp⟩

/-- Concatenation of a list of segments. -/
def cat (ps : List Chars) : Chars := ps.foldr (fun a b => a ++ b) []

theorem cat_cons (x : Chars) (ps : List Chars) : cat (x :: ps) = x ++ cat ps := rfl

theorem cat_append (xs ys : List Chars) : cat (xs ++ ys) = cat xs ++ cat ys := by
  induction xs with
  | nil => rfl
  | cons x xs ih => simp [cat_cons, ih]

theorem clean_cat {p : Chars} : ∀ {ps : List Chars},
    (∀ x ∈ ps, Clean p x) → Clean p (cat ps) := by
  intro ps
  induction ps with
  | nil => exact fun _ => clean_nil p
  | cons x ps ih =>
      intro h
      rw [cat_cons]
      exact clean_append (h x (List.mem_cons_self x ps))
        (ih (fun z hz => h z (List.mem_cons_of_mem x hz)))

/-- The central rewriting lemma: one occurrence of the pattern between `Clean`
segments is replaced, everything else is untouched. -/
theorem replace_cat (p r : Chars) (pre post : List Chars) (hp : p ≠ [])
    (hpre : ∀ x ∈ pre, Clean p x) (hpost : ∀ x ∈ post, Clean p x) :
    replaceAll p r (cat (pre ++ p :: post)) = cat (pre ++ r :: post) := by
  rw [cat_append, cat_append, cat_cons, cat_cons]
  rw [clean_step p r (cat pre) (p ++ cat post) (clean_cat hpre)]
  rw [match_step p r (cat post) hp]
  rw [clean_id p r (cat post) (clean_cat hpost)]

/-- A `Clean` string contains no occurrence of the (nonempty) pattern. -/
theorem clean_no_occur (p M : Chars) (hp : p ≠ []) (h : Clean p M) :
    ¬ p <:+: M := by
  rintro ⟨s, t, hst⟩
  have hplen : 0 < p.length := List.length_pos.2 hp
  have hlen : s.length < M.length := by
    rw [← hst]
    simp only [List.length_append]
    omega
  have hdrop : M.drop s.length = p ++ t := by
    rw [← hst, List.append_assoc, List.drop_left]
  have h2 := h s.length [] hlen
  rw [hdrop] at h2
  refine h2 ?_
  rw [List.append_nil]
  exact ⟨t, rfl⟩

/-- A listed segment is contained in the concatenation. -/
theorem cat_contains_piece (pre post : List Chars) (x : Chars) :
    x <:+: cat (pre ++ x :: post) := by
  rw [cat_append, cat_cons]
  exact ⟨cat pre, cat post, by rw [List.append_assoc]⟩

/-! ### Helper bundles for `Clean` obligations -/

theorem cleanAllB (p : Chars) (ps : List Chars) (h : ps.all (cleanB p) = true) :
    ∀ x ∈ ps, Clean p x := by
  intro x hx
  exact clean_of_cleanB (by
    have := List.all_eq_true.1 h x hx
    simpa using this)

theorem cleanAllCons {p : Chars} {x : Chars} {ps : List Chars}
    (hx : Clean p x) (h : ∀ z ∈ ps, Clean p z) : ∀ z ∈ x :: ps, Clean p z := by
  intro z hz
  rcases List.mem_cons.1 hz with rfl | h2
  · exact hx
  · exact h z h2

theorem cleanAllApp {p : Chars} {xs ys : List Chars}
    (h1 : ∀ x ∈ xs, Clean p x) (h2 : ∀ x ∈ ys, Clean p x) :
    ∀ x ∈ xs ++ ys, Clean p x := by
  intro x hx
  rcases List.mem_append.1 hx with h | h
  · exact h1 x h
  · exact h2 x h

theorem cleanAllHead (p : Chars) (h : Char) (hph : p.head? = some h)
    (ps : List Chars) (hfree : ∀ x ∈ ps, ∀ c ∈ x, c ≠ h) :
    ∀ x ∈ ps, Clean p x := by
  intro x hx
  exact clean_of_head_notin p x h hph (hfree x hx)

/-! ### The template rewriting of `generate_pdf` (`app/pdf_generator/generator.py`)

The placeholder patterns, the point-span rewrite and the two-line-subject
rewrite below are the string literals of `generator.py` lines 133–163 and
328–333.  A record's values reach the substitutions through `str(...)`, so a
record is modelled with its fields already as strings. -/

/-- `'[sc_year]\x7b.sc_year\x7d'` (generator.py line 141). -/
def scYearPat : Chars := "[sc_year]\x7b.sc_year\x7d".data

/-- `'[last_name]\x7b.last_name\x7d'` (line 145). -/
def lastNamePat : Chars := "[last_name]\x7b.last_name\x7d".data

/-- `'[first_name]\x7b.first_name\x7d'` (line 149). -/
def firstNamePat : Chars := "[first_name]\x7b.first_name\x7d".data

/-- `'[subject]\x7b.subject\x7d'` (line 153). -/
def subjectPat : Chars := "[subject]\x7b.subject\x7d".data

/-- `'[test_name]\x7b.test_name\x7d'` (line 157). -/
def testNamePat : Chars := "[test_name]\x7b.test_name\x7d".data

/-- `'[score]\x7b.score\x7d'` (line 161). -/
def scorePat : Chars := "[score]\x7b.score\x7d".data

/-- The plain single score placeholder markup
`<span class="point">点</span>` (line 134). -/
def pointPat : Chars := "<span class=\"point\">点</span>".data

/-- Its two-part replacement — the digit span plus the separate UP span —
`<span class="point point-up"><span class="ten">点</span><span class="up">UP</span></span>`
(line 135). -/
def pointRep : Chars :=
  "<span class=\"point point-up\"><span class=\"ten\">点</span><span class=\"up\">UP</span></span>".data

/-- `MULTILINE_SUBJECTS` of `generator.py` line 32. -/
def MULTILINE_SUBJECTS : List (String × String) :=
  [("技術家庭", "技術\n家庭"), ("保健体育", "保健\n体育")]

/-- `f'<span class="subject">{s}</span>'` (lines 331–332). -/
def subjSpanPat (s : String) : Chars :=
  "<span class=\"subject\">".data ++ s.data ++ "</span>".data

/-- One record as it reaches `generate_pdf`: every field already converted by
`str(...)` as the substitutions do. -/
structure RecordInput where
  subject : String
  test_name : String
  score : String
  sc_year : String
  last_name : String
  first_name : String
  template_type : String

/-- The six placeholder substitutions of `generate_pdf` (lines 140–163), in
source order: sc_year, last_name, first_name, subject, test_name, score. -/
def substitute_fields (y l f sj tn sc : Chars) (t : Chars) : Chars :=
  replaceAll scorePat sc
    (replaceAll testNamePat tn
      (replaceAll subjectPat sj
        (replaceAll firstNamePat f
          (replaceAll lastNamePat l
            (replaceAll scYearPat y t)))))

/-- The full HTML-side pipeline of `generate_pdf` on a template text `t`:
first, when `template_type` is `"点数アップ掲示"` (score-up display), the
point-span rewrite (lines 75/133–136); then the six placeholder
substitutions; finally, for a `MULTILINE_SUBJECTS` subject, the two-line
subject rewrite (lines 328–333).  The straight-line source is written once
per branch of the final `match`. -/
def generate_html_content_on (t : Chars) (d : RecordInput) : Chars :=
  match MULTILINE_SUBJECTS.find? (fun q => q.1 = d.subject) with
  | some q =>
      replaceAll (subjSpanPat d.subject) (subjSpanPat q.2)
        (substitute_fields d.sc_year.data d.last_name.data d.first_name.data
          d.subject.data d.test_name.data d.score.data
          (if d.template_type = "点数アップ掲示" then replaceAll pointPat pointRep t
           else t))
  | none =>
      substitute_fields d.sc_year.data d.last_name.data d.first_name.data
        d.subject.data d.test_name.data d.score.data
        (if d.template_type = "点数アップ掲示" then replaceAll pointPat pointRep t
         else t)

/-- Modelled from the spec: `templates/index.html`, which is not under the
sources, only read by `generate_pdf` (line 71).  Per spec §6 it is "one HTML
file containing six typed placeholder spans (grade, last name, first name,
subject, test name, score)" — plus the honorific region of §4.4 step 5 and
the `point` placeholder rewritten in §4.4 step 2 — whose body interior is
wrapped into the final shell.  The placeholder tokens themselves are the
literals of `generator.py`. -/
def templateHtml : String :=
  "<html><head></head><body><div class=\"card\"><span class=\"sc_year\">[sc_year]\x7b.sc_year\x7d</span><span class=\"last_name\">[last_name]\x7b.last_name\x7d</span><span class=\"first_name\">[first_name]\x7b.first_name\x7d</span><span class=\"honorific\">さん</span><span class=\"subject\">[subject]\x7b.subject\x7d</span><span class=\"test_name\">[test_name]\x7b.test_name\x7d</span><span class=\"score\">[score]\x7b.score\x7d</span><span class=\"point\">点</span></div></body></html>"

/-- `generate_pdf`'s final `html_content` for one record, on the modelled
template. -/
def generate_html_content (d : RecordInput) : Chars :=
  generate_html_content_on templateHtml.data d

/-! #### The template, cut at its placeholders -/

def A0 : Chars := "<html><head></head><body><div class=\"card\"><span class=\"sc_year\">".data
def A1 : Chars := "</span><span class=\"last_name\">".data
def A2 : Chars := "</span><span class=\"first_name\">".data
def A3 : Chars := "</span><span class=\"honorific\">さん</span><span class=\"subject\">".data
def A4 : Chars := "</span><span class=\"test_name\">".data
def A5 : Chars := "</span><span class=\"score\">".data
def S1 : Chars := "</span>".data
def S2 : Chars := "</div></body></html>".data

/-- `A3` cut before its subject-span opener. -/
def A3h : Chars := "</span><span class=\"honorific\">さん</span>".data

/-- `A4` cut after its closing `</span>`. -/
def A4t : Chars := "<span class=\"test_name\">".data

theorem template_split :
    templateHtml.data
      = cat ([A0, scYearPat, A1, lastNamePat, A2, firstNamePat, A3, subjectPat,
          A4, testNamePat, A5, scorePat] ++ [S1, pointPat, S2]) := by
  decide

/-- Shape of the six substitutions: with record values free of `'['` — the
head character of every placeholder — each placeholder is replaced by its
value and nothing else moves, whatever (bracket-free) tail follows the
template's last placeholder. -/
theorem substitute_fields_shape (y l f sj tn sc : Chars) (tail : List Chars)
    (hy : ∀ c ∈ y, c ≠ '[') (hl : ∀ c ∈ l, c ≠ '[') (hf : ∀ c ∈ f, c ≠ '[')
    (hsj : ∀ c ∈ sj, c ≠ '[') (htn : ∀ c ∈ tn, c ≠ '[') (_hsc : ∀ c ∈ sc, c ≠ '[')
    (htail : ∀ x ∈ tail, ∀ c ∈ x, c ≠ '[') :
    substitute_fields y l f sj tn sc
        (cat ([A0, scYearPat, A1, lastNamePat, A2, firstNamePat, A3, subjectPat,
          A4, testNamePat, A5, scorePat] ++ tail))
      = cat ([A0, y, A1, l, A2, f, A3, sj, A4, tn, A5, sc] ++ tail) := by
  have e1 : replaceAll scYearPat y
      (cat ([A0] ++ scYearPat :: ([A1, lastNamePat, A2, firstNamePat, A3,
        subjectPat, A4, testNamePat, A5, scorePat] ++ tail)))
      = cat ([A0] ++ y :: ([A1, lastNamePat, A2, firstNamePat, A3, subjectPat,
        A4, testNamePat, A5, scorePat] ++ tail)) :=
    replace_cat _ _ _ _ (by decide)
      (cleanAllB _ _ (by decide))
      (cleanAllApp (cleanAllB _ _ (by decide))
        (cleanAllHead _ '[' (by decide) _ htail))
  have e2 : replaceAll lastNamePat l
      (cat ([A0, y, A1] ++ lastNamePat :: ([A2, firstNamePat, A3, subjectPat,
        A4, testNamePat, A5, scorePat] ++ tail)))
      = cat ([A0, y, A1] ++ l :: ([A2, firstNamePat, A3, subjectPat, A4,
        testNamePat, A5, scorePat] ++ tail)) :=
    replace_cat _ _ _ _ (by decide)
      (cleanAllCons (clean_of_cleanB (by decide))
        (cleanAllCons (clean_of_head_notin _ _ '[' (by decide) hy)
          (cleanAllB _ _ (by decide))))
      (cleanAllApp (cleanAllB _ _ (by decide))
        (cleanAllHead _ '[' (by decide) _ htail))
  have e3 : replaceAll firstNamePat f
      (cat ([A0, y, A1, l, A2] ++ firstNamePat :: ([A3, subjectPat, A4,
        testNamePat, A5, scorePat] ++ tail)))
      = cat ([A0, y, A1, l, A2] ++ f :: ([A3, subjectPat, A4, testNamePat, A5,
        scorePat] ++ tail)) :=
    replace_cat _ _ _ _ (by decide)
      (cleanAllCons (clean_of_cleanB (by decide))
        (cleanAllCons (clean_of_head_notin _ _ '[' (by decide) hy)
          (cleanAllCons (clean_of_cleanB (by decide))
            (cleanAllCons (clean_of_head_notin _ _ '[' (by decide) hl)
              (cleanAllB _ _ (by decide))))))
      (cleanAllApp (cleanAllB _ _ (by decide))
        (cleanAllHead _ '[' (by decide) _ htail))
  have e4 : replaceAll subjectPat sj
      (cat ([A0, y, A1, l, A2, f, A3] ++ subjectPat :: ([A4, testNamePat, A5,
        scorePat] ++ tail)))
      = cat ([A0, y, A1, l, A2, f, A3] ++ sj :: ([A4, testNamePat, A5,
        scorePat] ++ tail)) :=
    replace_cat _ _ _ _ (by decide)
      (cleanAllCons (clean_of_cleanB (by decide))
        (cleanAllCons (clean_of_head_notin _ _ '[' (by decide) hy)
          (cleanAllCons (clean_of_cleanB (by decide))
            (cleanAllCons (clean_of_head_notin _ _ '[' (by decide) hl)
              (cleanAllCons (clean_of_cleanB (by decide))
                (cleanAllCons (clean_of_head_notin _ _ '[' (by decide) hf)
                  (cleanAllB _ _ (by decide))))))))
      (cleanAllApp (cleanAllB _ _ (by decide))
        (cleanAllHead _ '[' (by decide) _ htail))
  have e5 : replaceAll testNamePat tn
      (cat ([A0, y, A1, l, A2, f, A3, sj, A4] ++ testNamePat :: ([A5,
        scorePat] ++ tail)))
      = cat ([A0, y, A1, l, A2, f, A3, sj, A4] ++ tn :: ([A5, scorePat]
        ++ tail)) :=
    replace_cat _ _ _ _ (by decide)
      (cleanAllCons (clean_of_cleanB (by decide))
        (cleanAllCons (clean_of_head_notin _ _ '[' (by decide) hy)
          (cleanAllCons (clean_of_cleanB (by decide))
            (cleanAllCons (clean_of_head_notin _ _ '[' (by decide) hl)
              (cleanAllCons (clean_of_cleanB (by decide))
                (cleanAllCons (clean_of_head_notin _ _ '[' (by decide) hf)
                  (cleanAllCons (clean_of_cleanB (by decide))
                    (cleanAllCons (clean_of_head_notin _ _ '[' (by decide) hsj)
                      (cleanAllB _ _ (by decide))))))))))
      (cleanAllApp (cleanAllB _ _ (by decide))
        (cleanAllHead _ '[' (by decide) _ htail))
  have e6 : replaceAll scorePat sc
      (cat ([A0, y, A1, l, A2, f, A3, sj, A4, tn, A5] ++ scorePat :: tail))
      = cat ([A0, y, A1, l, A2, f, A3, sj, A4, tn, A5] ++ sc :: tail) :=
    replace_cat _ _ _ _ (by decide)
      (cleanAllCons (clean_of_cleanB (by decide))
        (cleanAllCons (clean_of_head_notin _ _ '[' (by decide) hy)
          (cleanAllCons (clean_of_cleanB (by decide))
            (cleanAllCons (clean_of_head_notin _ _ '[' (by decide) hl)
              (cleanAllCons (clean_of_cleanB (by decide))
                (cleanAllCons (clean_of_head_notin _ _ '[' (by decide) hf)
                  (cleanAllCons (clean_of_cleanB (by decide))
                    (cleanAllCons (clean_of_head_notin _ _ '[' (by decide) hsj)
                      (cleanAllCons (clean_of_cleanB (by decide))
                        (cleanAllCons
                          (clean_of_head_notin _ _ '[' (by decide) htn)
                          (cleanAllB _ _ (by decide))))))))))))
      (cleanAllHead _ '[' (by decide) _ htail)
  simp only [substitute_fields]
  simp only [List.cons_append, List.nil_append] at e1 e2 e3 e4 e5 e6 ⊢
  rw [e1, e2, e3, e4, e5, e6]

/-- Point-span rewriting of the modelled template (the up-branch of the
pipeline): only the `point` span moves. -/
theorem point_replaced :
    replaceAll pointPat pointRep templateHtml.data
      = cat ([A0, scYearPat, A1, lastNamePat, A2, firstNamePat, A3, subjectPat,
          A4, testNamePat, A5, scorePat] ++ [S1, pointRep, S2]) := by
  rw [template_split]
  have e : replaceAll pointPat pointRep
      (cat ([A0, scYearPat, A1, lastNamePat, A2, firstNamePat, A3, subjectPat,
        A4, testNamePat, A5, scorePat, S1] ++ pointPat :: [S2]))
      = cat ([A0, scYearPat, A1, lastNamePat, A2, firstNamePat, A3, subjectPat,
        A4, testNamePat, A5, scorePat, S1] ++ pointRep :: [S2]) :=
    replace_cat _ _ _ _ (by decide) (cleanAllB _ _ (by decide))
      (cleanAllB _ _ (by decide))
  simp only [List.cons_append, List.nil_append] at e ⊢
  exact e

/-- Record values, as plain text: free of `'<'` and `'['`. -/
def benignStr (s : String) : Prop := ∀ c ∈ s.data, c ≠ '<' ∧ c ≠ '['

theorem benign_noBr {s : String} (h : benignStr s) : ∀ c ∈ s.data, c ≠ '[' :=
  fun c hc => (h c hc).2

theorem benign_noLt {s : String} (h : benignStr s) : ∀ c ∈ s.data, c ≠ '<' :=
  fun c hc => (h c hc).1

/-- Presence of the two-part element and absence of the plain point span in
the fully substituted up-branch markup (subject substituted in place). -/
theorem up_final_pieces (y l f sj tn sc : Chars)
    (hy : ∀ c ∈ y, c ≠ '<') (hl : ∀ c ∈ l, c ≠ '<') (hf : ∀ c ∈ f, c ≠ '<')
    (hsj : ∀ c ∈ sj, c ≠ '<') (htn : ∀ c ∈ tn, c ≠ '<')
    (hsc : ∀ c ∈ sc, c ≠ '<') :
    pointRep <:+:
        cat ([A0, y, A1, l, A2, f, A3, sj, A4, tn, A5, sc] ++ [S1, pointRep, S2])
      ∧ ¬ pointPat <:+:
          cat ([A0, y, A1, l, A2, f, A3, sj, A4, tn, A5, sc]
            ++ [S1, pointRep, S2]) := by
  constructor
  · have h := cat_contains_piece [A0, y, A1, l, A2, f, A3, sj, A4, tn, A5, sc, S1]
      [S2] pointRep
    simpa using h
  · apply clean_no_occur _ _ (by decide)
    apply clean_cat
    simp only [List.cons_append, List.nil_append]
    refine cleanAllCons (clean_of_cleanB (by decide)) ?_
    refine cleanAllCons (clean_of_head_notin _ _ '<' (by decide) hy) ?_
    refine cleanAllCons (clean_of_cleanB (by decide)) ?_
    refine cleanAllCons (clean_of_head_notin _ _ '<' (by decide) hl) ?_
    refine cleanAllCons (clean_of_cleanB (by decide)) ?_
    refine cleanAllCons (clean_of_head_notin _ _ '<' (by decide) hf) ?_
    refine cleanAllCons (clean_of_cleanB (by decide)) ?_
    refine cleanAllCons (clean_of_head_notin _ _ '<' (by decide) hsj) ?_
    refine cleanAllCons (clean_of_cleanB (by decide)) ?_
    refine cleanAllCons (clean_of_head_notin _ _ '<' (by decide) htn) ?_
    refine cleanAllCons (clean_of_cleanB (by decide)) ?_
    refine cleanAllCons (clean_of_head_notin _ _ '<' (by decide) hsc) ?_
    exact cleanAllB _ _ (by decide)

/-- Same, for the two-line-subject form of the up-branch markup. -/
theorem up_final_pieces_multi (y l f tn sc mid : Chars)
    (hy : ∀ c ∈ y, c ≠ '<') (hl : ∀ c ∈ l, c ≠ '<') (hf : ∀ c ∈ f, c ≠ '<')
    (htn : ∀ c ∈ tn, c ≠ '<') (hsc : ∀ c ∈ sc, c ≠ '<')
    (hmid : cleanB pointPat mid = true) :
    pointRep <:+:
        cat ([A0, y, A1, l, A2, f, A3h, mid, A4t, tn, A5, sc]
          ++ [S1, pointRep, S2])
      ∧ ¬ pointPat <:+:
          cat ([A0, y, A1, l, A2, f, A3h, mid, A4t, tn, A5, sc]
            ++ [S1, pointRep, S2]) := by
  constructor
  · have h := cat_contains_piece
      [A0, y, A1, l, A2, f, A3h, mid, A4t, tn, A5, sc, S1] [S2] pointRep
    simpa using h
  · apply clean_no_occur _ _ (by decide)
    apply clean_cat
    simp only [List.cons_append, List.nil_append]
    refine cleanAllCons (clean_of_cleanB (by decide)) ?_
    refine cleanAllCons (clean_of_head_notin _ _ '<' (by decide) hy) ?_
    refine cleanAllCons (clean_of_cleanB (by decide)) ?_
    refine cleanAllCons (clean_of_head_notin _ _ '<' (by decide) hl) ?_
    refine cleanAllCons (clean_of_cleanB (by decide)) ?_
    refine cleanAllCons (clean_of_head_notin _ _ '<' (by decide) hf) ?_
    refine cleanAllCons (clean_of_cleanB (by decide)) ?_
    refine cleanAllCons (clean_of_cleanB hmid) ?_
    refine cleanAllCons (clean_of_cleanB (by decide)) ?_
    refine cleanAllCons (clean_of_head_notin _ _ '<' (by decide) htn) ?_
    refine cleanAllCons (clean_of_cleanB (by decide)) ?_
    refine cleanAllCons (clean_of_head_notin _ _ '<' (by decide) hsc) ?_
    exact cleanAllB _ _ (by decide)

/-- In the non-up branch the plain point span is still present. -/
theorem plain_final_pieces (y l f sj tn sc : Chars) :
    pointPat <:+:
      cat ([A0, y, A1, l, A2, f, A3, sj, A4, tn, A5, sc] ++ [S1, pointPat, S2]) := by
  have h := cat_contains_piece [A0, y, A1, l, A2, f, A3, sj, A4, tn, A5, sc, S1]
    [S2] pointPat
  simpa using h

/-- In the non-up branch with a two-line subject the plain span is present. -/
theorem plain_final_pieces_multi (y l f tn sc mid : Chars) :
    pointPat <:+:
      cat ([A0, y, A1, l, A2, f, A3h, mid, A4t, tn, A5, sc]
        ++ [S1, pointPat, S2]) := by
  have h := cat_contains_piece
    [A0, y, A1, l, A2, f, A3h, mid, A4t, tn, A5, sc, S1] [S2] pointPat
  simpa using h

/-- The two-line rewrite for 技術家庭: the substituted subject span —
`<span class="subject">技術家庭</span>`, formed by `A3`'s tail, the value
and `A4`'s head — is rewritten to its two-line form; nothing else matches. -/
theorem tech_shape (y l f tn sc : Chars) (tailL : List Chars)
    (hy : ∀ c ∈ y, c ≠ '<') (hl : ∀ c ∈ l, c ≠ '<') (hf : ∀ c ∈ f, c ≠ '<')
    (htn : ∀ c ∈ tn, c ≠ '<') (hsc : ∀ c ∈ sc, c ≠ '<')
    (htailB : tailL.all (cleanB (subjSpanPat "技術家庭")) = true) :
    replaceAll (subjSpanPat "技術家庭") (subjSpanPat "技術\n家庭")
        (cat ([A0, y, A1, l, A2, f, A3, ("技術家庭" : String).data, A4, tn, A5, sc]
          ++ tailL))
      = cat ([A0, y, A1, l, A2, f, A3h, subjSpanPat "技術\n家庭", A4t, tn, A5, sc]
          ++ tailL) := by
  have hmid : cat [A3, ("技術家庭" : String).data, A4]
      = cat [A3h, subjSpanPat "技術家庭", A4t] := by decide
  have hre : cat ([A0, y, A1, l, A2, f, A3, ("技術家庭" : String).data, A4, tn,
        A5, sc] ++ tailL)
      = cat ([A0, y, A1, l, A2, f, A3h] ++ subjSpanPat "技術家庭"
          :: ([A4t, tn, A5, sc] ++ tailL)) := by
    calc
      cat ([A0, y, A1, l, A2, f, A3, ("技術家庭" : String).data, A4, tn, A5, sc]
          ++ tailL)
          = cat ([A0, y, A1, l, A2, f]
              ++ ([A3, ("技術家庭" : String).data, A4]
                ++ ([tn, A5, sc] ++ tailL))) := rfl
      _ = cat [A0, y, A1, l, A2, f]
            ++ (cat [A3, ("技術家庭" : String).data, A4]
              ++ cat ([tn, A5, sc] ++ tailL)) := by
          rw [cat_append, cat_append]
      _ = cat [A0, y, A1, l, A2, f]
            ++ (cat [A3h, subjSpanPat "技術家庭", A4t]
              ++ cat ([tn, A5, sc] ++ tailL)) := by rw [hmid]
      _ = cat ([A0, y, A1, l, A2, f]
            ++ ([A3h, subjSpanPat "技術家庭", A4t] ++ ([tn, A5, sc] ++ tailL))) := by
          simp only [cat_append, List.append_assoc]
      _ = cat ([A0, y, A1, l, A2, f, A3h] ++ subjSpanPat "技術家庭"
            :: ([A4t, tn, A5, sc] ++ tailL)) := rfl
  rw [hre]
  have e := replace_cat (subjSpanPat "技術家庭") (subjSpanPat "技術\n家庭")
    [A0, y, A1, l, A2, f, A3h] ([A4t, tn, A5, sc] ++ tailL) (by decide)
    (cleanAllCons (clean_of_cleanB (by decide))
      (cleanAllCons (clean_of_head_notin _ _ '<' (by decide) hy)
        (cleanAllCons (clean_of_cleanB (by decide))
          (cleanAllCons (clean_of_head_notin _ _ '<' (by decide) hl)
            (cleanAllCons (clean_of_cleanB (by decide))
              (cleanAllCons (clean_of_head_notin _ _ '<' (by decide) hf)
                (cleanAllB _ _ (by decide))))))))
    (cleanAllApp
      (cleanAllCons (clean_of_cleanB (by decide))
        (cleanAllCons (clean_of_head_notin _ _ '<' (by decide) htn)
          (cleanAllCons (clean_of_cleanB (by decide))
            (cleanAllCons (clean_of_head_notin _ _ '<' (by decide) hsc)
              (fun z hz => absurd hz (List.not_mem_nil z))))))
      (cleanAllB _ _ htailB))
  rw [e]
  simp only [List.cons_append, List.nil_append]

/-- The two-line rewrite for 保健体育. -/
theorem sport_shape (y l f tn sc : Chars) (tailL : List Chars)
    (hy : ∀ c ∈ y, c ≠ '<') (hl : ∀ c ∈ l, c ≠ '<') (hf : ∀ c ∈ f, c ≠ '<')
    (htn : ∀ c ∈ tn, c ≠ '<') (hsc : ∀ c ∈ sc, c ≠ '<')
    (htailB : tailL.all (cleanB (subjSpanPat "保健体育")) = true) :
    replaceAll (subjSpanPat "保健体育") (subjSpanPat "保健\n体育")
        (cat ([A0, y, A1, l, A2, f, A3, ("保健体育" : String).data, A4, tn, A5, sc]
          ++ tailL))
      = cat ([A0, y, A1, l, A2, f, A3h, subjSpanPat "保健\n体育", A4t, tn, A5, sc]
          ++ tailL) := by
  have hmid : cat [A3, ("保健体育" : String).data, A4]
      = cat [A3h, subjSpanPat "保健体育", A4t] := by decide
  have hre : cat ([A0, y, A1, l, A2, f, A3, ("保健体育" : String).data, A4, tn,
        A5, sc] ++ tailL)
      = cat ([A0, y, A1, l, A2, f, A3h] ++ subjSpanPat "保健体育"
          :: ([A4t, tn, A5, sc] ++ tailL)) := by
    calc
      cat ([A0, y, A1, l, A2, f, A3, ("保健体育" : String).data, A4, tn, A5, sc]
          ++ tailL)
          = cat ([A0, y, A1, l, A2, f]
              ++ ([A3, ("保健体育" : String).data, A4]
                ++ ([tn, A5, sc] ++ tailL))) := rfl
      _ = cat [A0, y, A1, l, A2, f]
            ++ (cat [A3, ("保健体育" : String).data, A4]
              ++ cat ([tn, A5, sc] ++ tailL)) := by
          rw [cat_append, cat_append]
      _ = cat [A0, y, A1, l, A2, f]
            ++ (cat [A3h, subjSpanPat "保健体育", A4t]
              ++ cat ([tn, A5, sc] ++ tailL)) := by rw [hmid]
      _ = cat ([A0, y, A1, l, A2, f]
            ++ ([A3h, subjSpanPat "保健体育", A4t] ++ ([tn, A5, sc] ++ tailL))) := by
          simp only [cat_append, List.append_assoc]
      _ = cat ([A0, y, A1, l, A2, f, A3h] ++ subjSpanPat "保健体育"
            :: ([A4t, tn, A5, sc] ++ tailL)) := rfl
  rw [hre]
  have e := replace_cat (subjSpanPat "保健体育") (subjSpanPat "保健\n体育")
    [A0, y, A1, l, A2, f, A3h] ([A4t, tn, A5, sc] ++ tailL) (by decide)
    (cleanAllCons (clean_of_cleanB (by decide))
      (cleanAllCons (clean_of_head_notin _ _ '<' (by decide) hy)
        (cleanAllCons (clean_of_cleanB (by decide))
          (cleanAllCons (clean_of_head_notin _ _ '<' (by decide) hl)
            (cleanAllCons (clean_of_cleanB (by decide))
              (cleanAllCons (clean_of_head_notin _ _ '<' (by decide) hf)
                (cleanAllB _ _ (by decide))))))))
    (cleanAllApp
      (cleanAllCons (clean_of_cleanB (by decide))
        (cleanAllCons (clean_of_head_notin _ _ '<' (by decide) htn)
          (cleanAllCons (clean_of_cleanB (by decide))
            (cleanAllCons (clean_of_head_notin _ _ '<' (by decide) hsc)
              (fun z hz => absurd hz (List.not_mem_nil z))))))
      (cleanAllB _ _ htailB))
  rw [e]
  simp only [List.cons_append, List.nil_append]

/-- C7 on a single-line subject: the subject is not in `MULTILINE_SUBJECTS`,
so the final rewrite is the identity branch. -/
theorem c7_aux_nomulti (d : RecordInput)
    (hnm : MULTILINE_SUBJECTS.find? (fun q => q.1 = d.subject) = none)
    (hsjb : ∀ c ∈ d.subject.data, c ≠ '<' ∧ c ≠ '[')
    (hy : benignStr d.sc_year) (hl : benignStr d.last_name)
    (hf : benignStr d.first_name) (htn : benignStr d.test_name)
    (hsc : benignStr d.score) :
    (d.template_type = "点数アップ掲示" →
        pointRep <:+: generate_html_content d
          ∧ ¬ pointPat <:+: generate_html_content d)
      ∧ (d.template_type ≠ "点数アップ掲示" →
          pointPat <:+: generate_html_content d) := by
  unfold generate_html_content generate_html_content_on
  simp only [hnm]
  constructor
  · intro htpl
    rw [if_pos htpl, point_replaced,
      substitute_fields_shape _ _ _ _ _ _ _ (benign_noBr hy) (benign_noBr hl)
        (benign_noBr hf) (fun c hc => (hsjb c hc).2) (benign_noBr htn)
        (benign_noBr hsc) (by decide)]
    exact up_final_pieces _ _ _ _ _ _ (benign_noLt hy) (benign_noLt hl)
      (benign_noLt hf) (fun c hc => (hsjb c hc).1) (benign_noLt htn)
      (benign_noLt hsc)
  · intro htpl
    rw [if_neg htpl, template_split,
      substitute_fields_shape _ _ _ _ _ _ _ (benign_noBr hy) (benign_noBr hl)
        (benign_noBr hf) (fun c hc => (hsjb c hc).2) (benign_noBr htn)
        (benign_noBr hsc) (by decide)]
    exact plain_final_pieces _ _ _ _ _ _

/-- C7 for the two-line subject 技術家庭. -/
theorem c7_aux_tech (d : RecordInput) (hsubj : d.subject = "技術家庭")
    (hy : benignStr d.sc_year) (hl : benignStr d.last_name)
    (hf : benignStr d.first_name) (htn : benignStr d.test_name)
    (hsc : benignStr d.score) :
    (d.template_type = "点数アップ掲示" →
        pointRep <:+: generate_html_content d
          ∧ ¬ pointPat <:+: generate_html_content d)
      ∧ (d.template_type ≠ "点数アップ掲示" →
          pointPat <:+: generate_html_content d) := by
  unfold generate_html_content generate_html_content_on
  rw [hsubj]
  have hfind : MULTILINE_SUBJECTS.find? (fun q => q.1 = "技術家庭")
      = some ("技術家庭", "技術\n家庭") := by decide
  simp only [hfind]
  constructor
  · intro htpl
    rw [if_pos htpl, point_replaced,
      substitute_fields_shape _ _ _ _ _ _ _ (benign_noBr hy) (benign_noBr hl)
        (benign_noBr hf) (by decide) (benign_noBr htn) (benign_noBr hsc)
        (by decide),
      tech_shape _ _ _ _ _ _ (benign_noLt hy) (benign_noLt hl) (benign_noLt hf)
        (benign_noLt htn) (benign_noLt hsc) (by decide)]
    exact up_final_pieces_multi _ _ _ _ _ _ (benign_noLt hy) (benign_noLt hl)
      (benign_noLt hf) (benign_noLt htn) (benign_noLt hsc) (by decide)
  · intro htpl
    rw [if_neg htpl, template_split,
      substitute_fields_shape _ _ _ _ _ _ _ (benign_noBr hy) (benign_noBr hl)
        (benign_noBr hf) (by decide) (benign_noBr htn) (benign_noBr hsc)
        (by decide),
      tech_shape _ _ _ _ _ _ (benign_noLt hy) (benign_noLt hl) (benign_noLt hf)
        (benign_noLt htn) (benign_noLt hsc) (by decide)]
    exact plain_final_pieces_multi _ _ _ _ _ _

/-- C7 for the two-line subject 保健体育. -/
theorem c7_aux_sport (d : RecordInput) (hsubj : d.subject = "保健体育")
    (hy : benignStr d.sc_year) (hl : benignStr d.last_name)
    (hf : benignStr d.first_name) (htn : benignStr d.test_name)
    (hsc : benignStr d.score) :
    (d.template_type = "点数アップ掲示" →
        pointRep <:+: generate_html_content d
          ∧ ¬ pointPat <:+: generate_html_content d)
      ∧ (d.template_type ≠ "点数アップ掲示" →
          pointPat <:+: generate_html_content d) := by
  unfold generate_html_content generate_html_content_on
  rw [hsubj]
  have hfind : MULTILINE_SUBJECTS.find? (fun q => q.1 = "保健体育")
      = some ("保健体育", "保健\n体育") := by decide
  simp only [hfind]
  constructor
  · intro htpl
    rw [if_pos htpl, point_replaced,
      substitute_fields_shape _ _ _ _ _ _ _ (benign_noBr hy) (benign_noBr hl)
        (benign_noBr hf) (by decide) (benign_noBr htn) (benign_noBr hsc)
        (by decide),
      sport_shape _ _ _ _ _ _ (benign_noLt hy) (benign_noLt hl) (benign_noLt hf)
        (benign_noLt htn) (benign_noLt hsc) (by decide)]
    exact up_final_pieces_multi _ _ _ _ _ _ (benign_noLt hy) (benign_noLt hl)
      (benign_noLt hf) (benign_noLt htn) (benign_noLt hsc) (by decide)
  · intro htpl
    rw [if_neg htpl, template_split,
      substitute_fields_shape _ _ _ _ _ _ _ (benign_noBr hy) (benign_noBr hl)
        (benign_noBr hf) (by decide) (benign_noBr htn) (benign_noBr hsc)
        (by decide),
      sport_shape _ _ _ _ _ _ (benign_noLt hy) (benign_noLt hl) (benign_noLt hf)
        (benign_noLt htn) (benign_noLt hsc) (by decide)]
    exact plain_final_pieces_multi _ _ _ _ _ _

/-- C7: for every validated record — subject one of the eight valid names,
free-text fields plain text (here: free of the markup metacharacters `'<'`
and `'['`, which no placeholder value contains on the template's paths; the
spec itself notes that markup-bearing values are a separate, unhandled
injection defect) — with `template_type = "点数アップ掲示"` (score-up-display)
the final markup contains the two-part score element
`<span class="point point-up"><span class="ten">点</span><span class="up">UP</span></span>`
(digit span plus separate UP span) and no longer contains the plain
unmodified placeholder `<span class="point">点</span>`; for every other
`template_type` the plain placeholder markup is still present unchanged. -/
theorem C7_score_up_rewrites_point_span (d : RecordInput)
    (hsub : d.subject ∈ VALID_SUBJECT_NAMES)
    (hy : benignStr d.sc_year) (hl : benignStr d.last_name)
    (hf : benignStr d.first_name) (htn : benignStr d.test_name)
    (hsc : benignStr d.score) :
    (d.template_type = "点数アップ掲示" →
        pointRep <:+: generate_html_content d
          ∧ ¬ pointPat <:+: generate_html_content d)
      ∧ (d.template_type ≠ "点数アップ掲示" →
          pointPat <:+: generate_html_content d) := by
  have h8 : d.subject = "国語" ∨ d.subject = "数学" ∨ d.subject = "社会"
      ∨ d.subject = "理科" ∨ d.subject = "英語" ∨ d.subject = "技術家庭"
      ∨ d.subject = "音楽" ∨ d.subject = "保健体育" := by
    simpa [VALID_SUBJECT_NAMES] using hsub
  rcases h8 with h|h|h|h|h|h|h|h
  · exact c7_aux_nomulti d (by rw [h]; decide) (by rw [h]; decide) hy hl hf htn hsc
  · exact c7_aux_nomulti d (by rw [h]; decide) (by rw [h]; decide) hy hl hf htn hsc
  · exact c7_aux_nomulti d (by rw [h]; decide) (by rw [h]; decide) hy hl hf htn hsc
  · exact c7_aux_nomulti d (by rw [h]; decide) (by rw [h]; decide) hy hl hf htn hsc
  · exact c7_aux_nomulti d (by rw [h]; decide) (by rw [h]; decide) hy hl hf htn hsc
  · exact c7_aux_tech d h hy hl hf htn hsc
  · exact c7_aux_nomulti d (by rw [h]; decide) (by rw [h]; decide) hy hl hf htn hsc
  · exact c7_aux_sport d h hy hl hf htn hsc

/-- The concrete score-up record used as C7's witness. -/
def c7WitnessRecord : RecordInput :=
  ⟨"数学", "第1回定期考査", "95", "小3", "山田", "太郎", "点数アップ掲示"⟩

/-- C7 witness: on a concrete validated score-up record the final markup
contains the two-part element and not the plain point span. -/
theorem C7_score_up_rewrites_point_span_witness :
    pointRep <:+: generate_html_content c7WitnessRecord
      ∧ ¬ pointPat <:+: generate_html_content c7WitnessRecord :=
  (C7_score_up_rewrites_point_span c7WitnessRecord (by decide)
    (by unfold benignStr; decide) (by unfold benignStr; decide)
    (by unfold benignStr; decide) (by unfold benignStr; decide)
    (by unfold benignStr; decide)).1 rfl

/-! ### C8: error propagation of `create_pdf` / `encode_image_to_base64`

The file system visible to `generate_pdf` is a triple: the optional content
of `templates/css/main.css`, of `templates/index.html`, and a partial map
from image file name to its bytes (the `get_template_path` directory joins
are elided — path resolution is injective on the names used).  `open(...)`
on a missing file raises and the exception text carries the file name;
`create_pdf` (lines 117–121) wraps any exception from `generate_pdf` as
`RuntimeError(f"PDF生成中にエラーが発生しました: {str(e)}")`.
`encode_image_to_base64` (lines 35–42) instead catches its own exception,
prints a warning and returns the EMPTY string, so a missing image never
raises.  Base64 transcoding of the bytes is abstracted as the identity on
the opaque content string (it is injective and never fails, and no claim
depends on the encoded form); the pure css-text manipulations of
`generate_pdf` cannot raise and do not contribute to `html_content`, so they
are not re-modelled here. -/

/-- The assets visible to one render. -/
structure FS where
  css : Option String
  html : Option String
  image : String → Option String

/-- `encode_image_to_base64` (generator.py lines 35–42): on any read failure
it catches, warns and returns `""` — it never raises. -/
def encode_image_to_base64 (fs : FS) (path : String) : String :=
  match fs.image path with
  | some bytes => bytes
  | none => ""

/-- `SUBJECT_IMAGES` of `generator.py` lines 20–29: subject ↦ (medal, ribbon). -/
def SUBJECT_IMAGES : List (String × String × String) :=
  [("国語", "n_lang1.png", "n_lang2.png"), ("数学", "math1.png", "math2.png"),
   ("社会", "social1.png", "social2.png"), ("理科", "science1.png", "science2.png"),
   ("英語", "eng1.png", "eng2.png"), ("技術家庭", "tech1.png", "tech2.png"),
   ("音楽", "music1.png", "music2.png"), ("保健体育", "sport1.png", "sport2.png")]

/-- `SUBJECT_IMAGES.get(subject, SUBJECT_IMAGES["国語"])` (line 167). -/
def subjectImages (s : String) : String × String :=
  match SUBJECT_IMAGES.find? (fun q => q.1 = s) with
  | some q => q.2
  | none => ("n_lang1.png", "n_lang2.png")

/-- The record as `generate_pdf` reads it out of the `data` dict: each field
through `str(...)`, and `data.get("template_type")` compared against the
score-up label (absence compares unequal). -/
def recordOfData (data : List (String × Cell)) : RecordInput :=
  ⟨cellRepr (getField data "subject"), cellRepr (getField data "test_name"),
   cellRepr (getField data "score"), cellRepr (getField data "sc_year"),
   cellRepr (getField data "last_name"), cellRepr (getField data "first_name"),
   match lookupField data "template_type" with
   | some c => cellRepr c
   | none => ""⟩

/-- `generate_pdf` (generator.py lines 45–380) up to the renderer hand-off:
reading a missing `main.css` or `index.html` raises (surfaced as an error
carrying the file name); the four image loads go through
`encode_image_to_base64` and thus NEVER raise — a missing image yields `""`
in the corresponding slot; the result is the final `html_content` together
with the four encoded images spliced into the css. -/
def generate_pdf (fs : FS) (data : List (String × Cell)) :
    Except String (Chars × List String) :=
  match fs.css with
  | none => Except.error "main.cssを読み込めません"
  | some _ =>
      match fs.html with
      | none => Except.error "index.htmlを読み込めません"
      | some htmlT =>
          let d := recordOfData data
          Except.ok (generate_html_content_on htmlT.data d,
            [encode_image_to_base64 fs (subjectImages d.subject).1,
             encode_image_to_base64 fs "crest.png",
             encode_image_to_base64 fs (subjectImages d.subject).2,
             encode_image_to_base64 fs "twinkle.png"])

/-- `create_pdf` of `app/pdf_generator/__init__.py` (lines 96–121): validate,
raising `ValueError(error)`; then wrap any exception from `generate_pdf`
into `RuntimeError(f"PDF生成中にエラーが発生しました: {str(e)}")`. -/
def create_pdf (fs : FS) (data : List (String × Cell)) :
    Except String (Chars × List String) :=
  match validate_data data with
  | some e => Except.error e
  | none =>
      match generate_pdf fs data with
      | Except.error e => Except.error ("PDF生成中にエラーが発生しました: " ++ e)
      | Except.ok x => Except.ok x

/-- A valid record for 数学, plain template. -/
def c8Data : List (String × Cell) :=
  [("subject", .str "数学"), ("test_name", .str "第1回定期考査"),
   ("score", .int 95), ("sc_year", .str "小3"), ("last_name", .str "山田"),
   ("first_name", .str "太郎"), ("template_type", .str "得点掲示")]

/-- Assets with the 数学 medal image missing/unreadable. -/
def fsMissingMedal : FS :=
  ⟨some "CSSTEXT", some templateHtml,
   fun p => if p = "math1.png" then none else some "PNGDATA"⟩

/-- C8 counterexample: the claim says an unreadable image file surfaces a
runtime error and the render never silently completes with the failed asset
replaced by empty content.  With the 数学 medal image unreadable,
`encode_image_to_base64` returns `""`, and `create_pdf` on a valid record
COMPLETES successfully — the medal slot of the rendered output holds the
empty string instead of an error. -/
theorem C8_missing_image_completes_silently :
    (create_pdf fsMissingMedal c8Data).isOk = true
      ∧ encode_image_to_base64 fsMissingMedal "math1.png" = ""
      ∧ (∃ m imgs, create_pdf fsMissingMedal c8Data = Except.ok (m, imgs)
          ∧ "" ∈ imgs) := by
  refine ⟨rfl, rfl, ⟨_, _, rfl, ?_⟩⟩
  decide

/-- C8 amended: a missing TEMPLATE asset (`main.css` or `index.html`) does
surface as a runtime error carrying the underlying cause text, wrapped by
`create_pdf`; but a missing or unreadable IMAGE does not raise —
`encode_image_to_base64` returns the empty string and the render completes
whenever both template files are readable, whatever the image map. -/
theorem C8_template_errors_image_silence (fs : FS) (data : List (String × Cell))
    (hval : validate_data data = none) :
    (fs.css = none →
        create_pdf fs data
          = Except.error ("PDF生成中にエラーが発生しました: main.cssを読み込めません"))
      ∧ (∀ c, fs.css = some c → fs.html = none →
          create_pdf fs data
            = Except.error ("PDF生成中にエラーが発生しました: index.htmlを読み込めません"))
      ∧ (∀ p, fs.image p = none → encode_image_to_base64 fs p = "")
      ∧ (∀ c h, fs.css = some c → fs.html = some h →
          (create_pdf fs data).isOk = true) := by
  refine ⟨?_, ?_, ?_, ?_⟩
  · intro hcss
    unfold create_pdf generate_pdf
    simp only [hval, hcss]
    exact congrArg Except.error (by decide)
  · intro c hcss hhtml
    unfold create_pdf generate_pdf
    simp only [hval, hcss, hhtml]
    exact congrArg Except.error (by decide)
  · intro p hp
    unfold encode_image_to_base64
    simp only [hp]
  · intro c h hcss hhtml
    unfold create_pdf generate_pdf
    simp only [hval, hcss, hhtml]
    rfl

/-- Assets with everything readable. -/
def fsAllAssets : FS := ⟨some "CSSTEXT", some templateHtml, fun _ => some "PNGDATA"⟩

/-- Assets with `main.css` missing. -/
def fsNoCss : FS := ⟨none, some templateHtml, fun _ => some "PNGDATA"⟩

/-- C8 amended, witness: a concrete missing-css render errors with the cause
text attached; with all template assets present the render completes. -/
theorem C8_template_errors_image_silence_witness :
    create_pdf fsNoCss c8Data
        = Except.error ("PDF生成中にエラーが発生しました: main.cssを読み込めません")
      ∧ (create_pdf fsAllAssets c8Data).isOk = true :=
  ⟨(C8_template_errors_image_silence fsNoCss c8Data (by decide)).1 rfl,
   (C8_template_errors_image_silence fsAllAssets c8Data (by decide)).2.2.2
     "CSSTEXT" templateHtml rfl rfl⟩

end GenScorePdf
